import Mathlib

/-!
Verification of the creational design-pattern examples of this repository.

The central object of study is the Prototype example (`Prototype.clone` in the
unnamed TypeScript file): a class holding a `primitive` field, a `component`
object, and a `circularReference` node that points back at its owner, with a
`clone` method that copies the object graph.  Because every claim about it is a
claim about JavaScript *object identity*, we embed the relevant fragment of
JavaScript semantics explicitly: a store (heap) of objects addressed by natural
numbers, where each object carries its own enumerable properties (an
association list from property names to values) and an internal `[[Prototype]]`
slot.  Property reads walk the prototype chain; `Object.create(p)` allocates a
fresh object with no own properties and `[[Prototype]] = p`; the spread
`{ ...o }` allocates a fresh object whose own properties are a shallow copy of
the own enumerable properties of `o` (the prototype chain is *not* consulted).

The Abstract Factory example is a pure dispatch table and is embedded directly
as Lean structures of strings and functions.
-/

namespace TSPatterns

/-- A JavaScript value as it occurs in the Prototype example: a numeric
primitive (the example uses `245`), a reference to a heap object, or
`undefined`. -/
inductive JSVal where
  | num : Int → JSVal
  | ref : Nat → JSVal
  | undef : JSVal
deriving DecidableEq, Repr

/-- A JavaScript object: its own enumerable properties, in insertion order,
and its internal `[[Prototype]]` slot (`none` models a prototype outside the
modelled graph, i.e. `Object.prototype` or `null`, whose properties play no
role in the example). -/
structure JSObject where
  props : List (String × JSVal)
  proto : Option Nat
deriving DecidableEq, Repr

/-- The heap: object at address `a` is `heap[a]?`.  Allocation appends. -/
structure Store where
  heap : List JSObject
deriving DecidableEq, Repr

/-- Look up a property in an own-property list. -/
def lookupProp : List (String × JSVal) → String → Option JSVal
  | [], _ => none
  | p :: rest, k => if p.1 = k then some p.2 else lookupProp rest k

/-- `[[Set]]` / property definition on an own-property list: any previous
binding of the key is replaced. -/
def setProp (l : List (String × JSVal)) (k : String) (v : JSVal) :
    List (String × JSVal) :=
  (l.filter (fun p => p.1 != k)) ++ [(k, v)]

/-- Own-property lookup (`Object.getOwnPropertyDescriptor`-style: no prototype
chain). -/
def JSObject.getOwn (o : JSObject) (k : String) : Option JSVal :=
  lookupProp o.props k

/-- Allocate a fresh object; its address is the previous heap length, so it is
distinct from every address already in use. -/
def Store.alloc (σ : Store) (o : JSObject) : Store × Nat :=
  (⟨σ.heap ++ [o]⟩, σ.heap.length)

/-- Assignment `o.k = v` on the object at address `addr`: creates or replaces
the own property.  (On an invalid address the store is unchanged; the example
only ever assigns to freshly allocated objects.) -/
def Store.setOwn (σ : Store) (addr : Nat) (k : String) (v : JSVal) : Store :=
  match σ.heap[addr]? with
  | some o => ⟨σ.heap.set addr { o with props := setProp o.props k v }⟩
  | none => σ

/-- Property read following the `[[Prototype]]` chain, with explicit fuel.
JavaScript forbids cycles in the chain, and in this development every chain
descends to strictly smaller addresses, so `heap.length` steps always
suffice. -/
def getPropFuel (σ : Store) : Nat → Nat → String → Option JSVal
  | 0, _, _ => none
  | fuel + 1, addr, k =>
    match σ.heap[addr]? with
    | none => none
    | some o =>
      match o.getOwn k with
      | some v => some v
      | none =>
        match o.proto with
        | some p => getPropFuel σ fuel p k
        | none => none

/-- `σ.getProp addr k` is the JavaScript read `obj.k` for the object at
`addr`. -/
def Store.getProp (σ : Store) (addr : Nat) (k : String) : Option JSVal :=
  getPropFuel σ σ.heap.length addr k

/-- View a value as an object reference (used where the TypeScript types
guarantee an object: `this.component : object`, `this.circularReference :
ComponentWithBackReference`). -/
def JSVal.asRef : JSVal → Option Nat
  | .ref a => some a
  | _ => none

/-- `Prototype.clone`, translated statement by statement.

```ts
public clone(): this {
    const clone = Object.create(this);
    clone.component = Object.create(this.component);
    clone.circularReference = {
        ...this.circularReference,
        prototype: { ...this },
    };
    return clone;
}
```

`self` is the address of `this`.  The result is the final store together with
the address of the returned clone; `none` when a read that the TypeScript
types promise to be an object is not one.  The inner literal `{ ...this }` is
allocated before the enclosing literal; engine allocation order is not
observable through the identity comparisons studied here, only freshness and
distinctness of the two addresses are. -/
def clone (σ : Store) (self : Nat) : Option (Store × Nat) := do
  -- const clone = Object.create(this);
  let (σ1, cloneAddr) := σ.alloc ⟨[], some self⟩
  -- clone.component = Object.create(this.component);
  let compVal ← σ1.getProp self "component"
  let compAddr ← compVal.asRef
  let (σ2, compCloneAddr) := σ1.alloc ⟨[], some compAddr⟩
  let σ3 := σ2.setOwn cloneAddr "component" (JSVal.ref compCloneAddr)
  -- clone.circularReference = { ...this.circularReference, prototype: { ...this } };
  let crVal ← σ3.getProp self "circularReference"
  let crAddr ← crVal.asRef
  let crObj ← σ3.heap[crAddr]?
  let selfObj ← σ3.heap[self]?
  --   { ...this }  (shallow copy of the own enumerable properties of this)
  let (σ4, selfCopyAddr) := σ3.alloc ⟨selfObj.props, none⟩
  --   { ...this.circularReference, prototype: <the copy> }
  let (σ5, newCrAddr) :=
    σ4.alloc ⟨setProp crObj.props "prototype" (JSVal.ref selfCopyAddr), none⟩
  let σ6 := σ5.setOwn cloneAddr "circularReference" (JSVal.ref newCrAddr)
  return (σ6, cloneAddr)

/-! ### The `clientCode` scenario

```ts
const p1 = new Prototype();
p1.primitive = 245;
p1.component = new Date();
p1.circularReference = new ComponentWithBackReference(p1);
```

Address 0 is `p1`, address 1 the `Date` (a `Date` has no own enumerable
properties; its state lives in internal slots), address 2 the
`ComponentWithBackReference`, whose constructor stores its argument in the
`prototype` field. -/

def p1Obj : JSObject :=
  ⟨[("primitive", JSVal.num 245), ("component", JSVal.ref 1),
    ("circularReference", JSVal.ref 2)], none⟩

def dateObj : JSObject := ⟨[], none⟩

def backRefObj : JSObject := ⟨[("prototype", JSVal.ref 0)], none⟩

def clientStore : Store := ⟨[p1Obj, dateObj, backRefObj]⟩

/-- The store and clone address produced by `p1.clone()` in `clientCode`
(total by construction; the default is never used). -/
def cloneResult (σ : Store) (r : Nat) : Store × Nat :=
  (clone σ r).getD (σ, r)

/-! ### Abstract Factory (src/creational/abstractFactory.ts)

Interfaces become structures of their methods; concrete classes become
values of those structures; each concrete factory returns the products of its
own variant. -/

structure AbstractProductA where
  usefulFunctionA : String

structure AbstractProductB where
  usefulFunctionB : String
  anotherUsefulFunctionB : AbstractProductA → String

structure AbstractFactory where
  createProductA : Unit → AbstractProductA
  createProductB : Unit → AbstractProductB

def ConcreteProductA1 : AbstractProductA := ⟨"Product A1"⟩

def ConcreteProductA2 : AbstractProductA := ⟨"Product A2"⟩

def ConcreteProductB1 : AbstractProductB :=
  ⟨"Product B1", fun collaborator =>
    let result := collaborator.usefulFunctionA
    s!"Another useful product B1 collaborating with {result}"⟩

def ConcreteProductB2 : AbstractProductB :=
  ⟨"Product B2", fun collaborator =>
    let result := collaborator.usefulFunctionA
    s!"Another useful product B2 collaborating with {result}"⟩

def ConcreteFactory1 : AbstractFactory :=
  ⟨fun _ => ConcreteProductA1, fun _ => ConcreteProductB1⟩

def ConcreteFactory2 : AbstractFactory :=
  ⟨fun _ => ConcreteProductA2, fun _ => ConcreteProductB2⟩

/-! ### Auxiliary concrete stores

`cexStore` is a root whose component has an own enumerable property
`x = 5` (any plain object component; the `Prototype` class types `component`
as an arbitrary `object`).  `cloneOnce`/`cloneTwice` run `clone` twice on the
same source, as the idempotence-of-inspection property requires. -/

def cexComponentObj : JSObject := ⟨[("x", JSVal.num 5)], none⟩

def cexRootObj : JSObject :=
  ⟨[("primitive", JSVal.num 245), ("component", JSVal.ref 1),
    ("circularReference", JSVal.ref 2)], none⟩

def cexStore : Store := ⟨[cexRootObj, cexComponentObj, backRefObj]⟩

def cloneOnce : Store × Nat := cloneResult clientStore 0

def cloneTwice : Store × Nat := cloneResult cloneOnce.1 0

/-! ### Basic reading lemmas -/

/-- A property present as an own property is what a read returns. -/
lemma getProp_own {σ : Store} {a : Nat} {o : JSObject} {k : String} {v : JSVal}
    (h : σ.heap[a]? = some o) (hk : o.getOwn k = some v) :
    σ.getProp a k = some v := by
  have ha : a < σ.heap.length := (List.getElem?_eq_some.mp h).1
  obtain ⟨m, hm⟩ : ∃ m, σ.heap.length = m + 1 := ⟨σ.heap.length - 1, by omega⟩
  rw [Store.getProp, hm]
  simp [getPropFuel, h, hk]

/-- A property absent from the own properties is read through one step of the
`[[Prototype]]` chain. -/
lemma getProp_proto {σ : Store} {a p : Nat} {o po : JSObject} {k : String}
    {v : JSVal} (ha : σ.heap[a]? = some o) (hno : o.getOwn k = none)
    (hp : o.proto = some p) (hpo : σ.heap[p]? = some po)
    (hk : po.getOwn k = some v) :
    σ.getProp a k = some v := by
  have hlt : a < σ.heap.length := (List.getElem?_eq_some.mp ha).1
  have hplt : p < σ.heap.length := (List.getElem?_eq_some.mp hpo).1
  have hne : a ≠ p := by
    intro e
    rw [e, hpo] at ha
    cases ha
    rw [hno] at hk
    cases hk
  obtain ⟨m, hm⟩ : ∃ m, σ.heap.length = m + 2 := ⟨σ.heap.length - 2, by omega⟩
  rw [Store.getProp, hm]
  simp [getPropFuel, ha, hno, hp, hpo, hk]

/-- After `setProp l k v`, looking up `k` yields `v`. -/
lemma lookupProp_setProp (l : List (String × JSVal)) (k : String) (v : JSVal) :
    lookupProp (setProp l k v) k = some v := by
  induction l with
  | nil => simp [setProp, lookupProp]
  | cons p t ih =>
    by_cases h : p.1 = k
    · simpa [setProp, List.filter_cons, h, lookupProp] using ih
    · simpa [setProp, List.filter_cons, h, lookupProp] using ih

/-- The central computation: on any source whose `component` and
`circularReference` fields hold object references (as the TypeScript types
guarantee), `clone` allocates exactly four objects — the clone itself
(`[[Prototype]]` = the source, own `component`/`circularReference` fields), the
empty component copy delegating to the old component, the shallow copy of the
source, and the new back-reference node whose `prototype` field points at that
shallow copy — and returns the address of the first. -/
lemma clone_eq (σ : Store) (r c cr : Nat) (ro cro : JSObject)
    (h1 : σ.heap[r]? = some ro)
    (h3 : ro.getOwn "component" = some (JSVal.ref c))
    (h5 : ro.getOwn "circularReference" = some (JSVal.ref cr))
    (h6 : σ.heap[cr]? = some cro) :
    clone σ r = some
      (⟨σ.heap ++
        [⟨[("component", JSVal.ref (σ.heap.length + 1)),
           ("circularReference", JSVal.ref (σ.heap.length + 3))], some r⟩,
         ⟨[], some c⟩,
         ⟨ro.props, none⟩,
         ⟨setProp cro.props "prototype" (JSVal.ref (σ.heap.length + 2)), none⟩]⟩,
       σ.heap.length) := by
  have hr : r < σ.heap.length := (List.getElem?_eq_some.mp h1).1
  have hcr : cr < σ.heap.length := (List.getElem?_eq_some.mp h6).1
  have e1 : Store.getProp ⟨σ.heap ++ [⟨[], some r⟩]⟩ r "component"
      = some (JSVal.ref c) :=
    getProp_own (by simp [List.getElem?_append, hr, h1]) h3
  have e2 : Store.setOwn ⟨σ.heap ++ [⟨[], some r⟩, ⟨[], some c⟩]⟩ σ.heap.length
        "component" (JSVal.ref (σ.heap.length + 1))
      = ⟨σ.heap ++ [⟨[("component", JSVal.ref (σ.heap.length + 1))], some r⟩,
          ⟨[], some c⟩]⟩ := by
    rw [Store.setOwn]
    rw [List.getElem?_append_right (le_refl _)]
    simp [setProp, List.set_append]
  have e3 : Store.getProp ⟨σ.heap ++
        [⟨[("component", JSVal.ref (σ.heap.length + 1))], some r⟩,
         ⟨[], some c⟩]⟩ r "circularReference" = some (JSVal.ref cr) :=
    getProp_own (by simp [List.getElem?_append, hr, h1]) h5
  have e4 : (σ.heap ++
        [(⟨[("component", JSVal.ref (σ.heap.length + 1))], some r⟩ : JSObject),
         ⟨[], some c⟩])[cr]? = some cro := by
    simp [List.getElem?_append, hcr, h6]
  have e5 : (σ.heap ++
        [(⟨[("component", JSVal.ref (σ.heap.length + 1))], some r⟩ : JSObject),
         ⟨[], some c⟩])[r]? = some ro := by
    simp [List.getElem?_append, hr, h1]
  have e6 : Store.setOwn ⟨σ.heap ++
        [⟨[("component", JSVal.ref (σ.heap.length + 1))], some r⟩,
         ⟨[], some c⟩, ⟨ro.props, none⟩,
         ⟨setProp cro.props "prototype" (JSVal.ref (σ.heap.length + 2)), none⟩]⟩
        σ.heap.length "circularReference" (JSVal.ref (σ.heap.length + 3))
      = ⟨σ.heap ++
        [⟨[("component", JSVal.ref (σ.heap.length + 1)),
           ("circularReference", JSVal.ref (σ.heap.length + 3))], some r⟩,
         ⟨[], some c⟩,
         ⟨ro.props, none⟩,
         ⟨setProp cro.props "prototype" (JSVal.ref (σ.heap.length + 2)), none⟩]⟩ := by
    rw [Store.setOwn]
    rw [List.getElem?_append_right (le_refl _)]
    simp [setProp, List.set_append]
  simp +arith only [clone, Store.alloc, List.append_assoc, List.singleton_append,
    List.cons_append, List.nil_append, List.length_append, List.length_cons,
    List.length_nil, e1, Option.bind_eq_bind, Option.some_bind, JSVal.asRef, e2,
    e3, e4, e5, e6]
  rfl

/-- Packaged consequences of `clone_eq`: the returned address, the new heap
length, the frame property (no pre-existing address is touched), and the four
freshly allocated entries. -/
lemma clone_result_spec (σ : Store) (r c cr : Nat) (ro cro : JSObject)
    (σ2 : Store) (r2 : Nat)
    (h1 : σ.heap[r]? = some ro)
    (h3 : ro.getOwn "component" = some (JSVal.ref c))
    (h5 : ro.getOwn "circularReference" = some (JSVal.ref cr))
    (h6 : σ.heap[cr]? = some cro)
    (hcl : clone σ r = some (σ2, r2)) :
    r2 = σ.heap.length ∧
    σ2.heap.length = σ.heap.length + 4 ∧
    (∀ a, a < σ.heap.length → σ2.heap[a]? = σ.heap[a]?) ∧
    σ2.heap[σ.heap.length]?
      = some ⟨[("component", JSVal.ref (σ.heap.length + 1)),
               ("circularReference", JSVal.ref (σ.heap.length + 3))], some r⟩ ∧
    σ2.heap[σ.heap.length + 1]? = some ⟨[], some c⟩ ∧
    σ2.heap[σ.heap.length + 2]? = some ⟨ro.props, none⟩ ∧
    σ2.heap[σ.heap.length + 3]?
      = some ⟨setProp cro.props "prototype" (JSVal.ref (σ.heap.length + 2)), none⟩ := by
  rw [clone_eq σ r c cr ro cro h1 h3 h5 h6] at hcl
  simp only [Option.some.injEq, Prod.mk.injEq] at hcl
  obtain ⟨rfl, rfl⟩ := hcl
  refine ⟨rfl, by simp, fun a ha => by simp [List.getElem?_append, ha], ?_, ?_, ?_, ?_⟩
  · rw [List.getElem?_append_right (le_refl _)]
    simp
  · rw [List.getElem?_append_right (by omega)]
    simp +arith
  · rw [List.getElem?_append_right (by omega)]
    simp +arith
  · rw [List.getElem?_append_right (by omega)]
    simp +arith

/-! ### Claims -/

/-- C1: the claim states that the back-reference node of the clone points at
the clone itself.  The code does not do this: `prototype: { ...this }` stores
a *fresh shallow copy of the original* (address 5 below), which is neither the
clone (address 3) nor the original (address 0) — even though the comment
inside `clone` says the nested object "should point to the cloned object".
This theorem evaluates `clone` on the `clientCode` scenario and exhibits the
divergence. -/
theorem C1_backref_targets_copy_not_clone :
    clone clientStore 0 = some (cloneResult clientStore 0) ∧
    (cloneResult clientStore 0).2 = 3 ∧
    (cloneResult clientStore 0).1.getProp 3 "circularReference"
      = some (JSVal.ref 6) ∧
    (cloneResult clientStore 0).1.getProp 6 "prototype" = some (JSVal.ref 5) ∧
    (cloneResult clientStore 0).1.heap[5]? = some ⟨p1Obj.props, none⟩ ∧
    (5 : Nat) ≠ 3 ∧ (5 : Nat) ≠ 0 := by decide

/-- C2, counterexample: the claim states that every own property of
`r.component` is present, with equal value, as an own property of the
component of the clone.  On a root whose component carries the own property
`x = 5`, the cloned component (address 4, created by
`Object.create(this.component)`) has **no** own properties at all: reading
`x` as an own property yields `none`. -/
theorem C2_component_own_props_not_copied :
    (cexStore.heap[1]?).map (fun o => o.getOwn "x")
      = some (some (JSVal.num 5)) ∧
    (cloneResult cexStore 0).2 = 3 ∧
    (cloneResult cexStore 0).1.getProp 3 "component" = some (JSVal.ref 4) ∧
    ((cloneResult cexStore 0).1.heap[4]?).map (fun o => o.getOwn "x")
      = some none ∧
    ((cloneResult cexStore 0).1.heap[4]?).map JSObject.props = some [] := by
  decide

/-- C2, amended: the component of the clone is a newly allocated object with
no own properties whose `[[Prototype]]` is `r.component`; consequently every
own property of `r.component` is still *readable* on the cloned component with
equal value (through prototype delegation), but it is not copied as an own
property. -/
theorem C2_component_delegates_to_original (σ : Store) (r c cr : Nat)
    (ro co cro : JSObject) (k : String) (v : JSVal) (σ2 : Store) (r2 : Nat)
    (h1 : σ.heap[r]? = some ro)
    (h3 : ro.getOwn "component" = some (JSVal.ref c))
    (h4 : σ.heap[c]? = some co)
    (h5 : ro.getOwn "circularReference" = some (JSVal.ref cr))
    (h6 : σ.heap[cr]? = some cro)
    (hkv : co.getOwn k = some v)
    (hcl : clone σ r = some (σ2, r2)) :
    σ2.getProp r2 "component" = some (JSVal.ref (σ.heap.length + 1)) ∧
    σ2.heap[σ.heap.length + 1]? = some ⟨[], some c⟩ ∧
    σ2.getProp (σ.heap.length + 1) k = some v := by
  obtain ⟨hr2, _, hframe, hclone, hcomp, _, _⟩ :=
    clone_result_spec σ r c cr ro cro σ2 r2 h1 h3 h5 h6 hcl
  have hc : c < σ.heap.length := (List.getElem?_eq_some.mp h4).1
  subst hr2
  exact ⟨getProp_own hclone (by simp [JSObject.getOwn, lookupProp]), hcomp,
    getProp_proto hcomp rfl rfl ((hframe c hc).trans h4) hkv⟩

/-- C2, witness: on the store whose component owns `x = 5`, the cloned
component is the fresh empty object at address 4 delegating to address 1, and
reading `x` on it yields `5`. -/
theorem C2_component_delegates_witness :
    (cloneResult cexStore 0).1.getProp (cloneResult cexStore 0).2
      "component" = some (JSVal.ref 4) ∧
    (cloneResult cexStore 0).1.heap[4]? = some ⟨[], some 1⟩ ∧
    (cloneResult cexStore 0).1.getProp 4 "x" = some (JSVal.num 5) :=
  C2_component_delegates_to_original cexStore 0 1 2 cexRootObj cexComponentObj
    backRefObj "x" (JSVal.num 5)
    (cloneResult cexStore 0).1 (cloneResult cexStore 0).2
    (by decide) (by decide) (by decide) (by decide) (by decide) (by decide)
    (by decide)

/-- C3: the back-reference of the clone never aliases the original:
`clone(r).circularReference.prototype` is the fresh address
`σ.heap.length + 2`, distinct from `r`. -/
theorem C3_backref_not_original (σ : Store) (r c cr : Nat) (ro cro : JSObject)
    (σ2 : Store) (r2 : Nat)
    (h1 : σ.heap[r]? = some ro)
    (h3 : ro.getOwn "component" = some (JSVal.ref c))
    (h5 : ro.getOwn "circularReference" = some (JSVal.ref cr))
    (h6 : σ.heap[cr]? = some cro)
    (hcl : clone σ r = some (σ2, r2)) :
    σ2.getProp r2 "circularReference" = some (JSVal.ref (σ.heap.length + 3)) ∧
    σ2.getProp (σ.heap.length + 3) "prototype"
      = some (JSVal.ref (σ.heap.length + 2)) ∧
    σ.heap.length + 2 ≠ r := by
  obtain ⟨hr2, _, hframe, hclone, _, _, hnewcr⟩ :=
    clone_result_spec σ r c cr ro cro σ2 r2 h1 h3 h5 h6 hcl
  have hr : r < σ.heap.length := (List.getElem?_eq_some.mp h1).1
  subst hr2
  refine ⟨getProp_own hclone (by simp [JSObject.getOwn, lookupProp]), ?_,
    by omega⟩
  exact getProp_own hnewcr (lookupProp_setProp cro.props _ _)

/-- C3, witness: in the `clientCode` scenario the back-reference of the clone
points at address 5, and the original is address 0. -/
theorem C3_backref_not_original_witness :
    (cloneResult clientStore 0).1.getProp (cloneResult clientStore 0).2
      "circularReference" = some (JSVal.ref 6) ∧
    (cloneResult clientStore 0).1.getProp 6 "prototype"
      = some (JSVal.ref 5) ∧ (5 : Nat) ≠ 0 :=
  C3_backref_not_original clientStore 0 1 2 p1Obj backRefObj
    (cloneResult clientStore 0).1 (cloneResult clientStore 0).2
    (by decide) (by decide) (by decide) (by decide) (by decide)

/-- C4: the primitive field of the clone is value-equal to the primitive
field of the source (`Object.create(this)` makes the clone read `primitive`
through the prototype chain, where it finds exactly the value stored on the
source). -/
theorem C4_primitive_carried_over (σ : Store) (r c cr : Nat) (ro cro : JSObject)
    (prim : JSVal) (σ2 : Store) (r2 : Nat)
    (h1 : σ.heap[r]? = some ro)
    (h2 : ro.getOwn "primitive" = some prim)
    (h3 : ro.getOwn "component" = some (JSVal.ref c))
    (h5 : ro.getOwn "circularReference" = some (JSVal.ref cr))
    (h6 : σ.heap[cr]? = some cro)
    (hcl : clone σ r = some (σ2, r2)) :
    σ2.getProp r2 "primitive" = some prim := by
  obtain ⟨hr2, _, hframe, hclone, _, _, _⟩ :=
    clone_result_spec σ r c cr ro cro σ2 r2 h1 h3 h5 h6 hcl
  have hr : r < σ.heap.length := (List.getElem?_eq_some.mp h1).1
  subst hr2
  exact getProp_proto hclone (by simp [JSObject.getOwn, lookupProp]) rfl
    ((hframe r hr).trans h1) h2

/-- C4, witness: in the `clientCode` scenario the clone reads
`primitive = 245`, exactly the value of the source. -/
theorem C4_primitive_carried_over_witness :
    (cloneResult clientStore 0).1.getProp (cloneResult clientStore 0).2
      "primitive" = some (JSVal.num 245) :=
  C4_primitive_carried_over clientStore 0 1 2 p1Obj backRefObj (JSVal.num 245)
    (cloneResult clientStore 0).1 (cloneResult clientStore 0).2
    (by decide) (by decide) (by decide) (by decide) (by decide) (by decide)

/-- C5: the component of the clone is a distinct object instance: it lives at
the fresh address `σ.heap.length + 1`, different from the address of
`r.component`. -/
theorem C5_component_fresh (σ : Store) (r c cr : Nat) (ro co cro : JSObject)
    (σ2 : Store) (r2 : Nat)
    (h1 : σ.heap[r]? = some ro)
    (h3 : ro.getOwn "component" = some (JSVal.ref c))
    (h4 : σ.heap[c]? = some co)
    (h5 : ro.getOwn "circularReference" = some (JSVal.ref cr))
    (h6 : σ.heap[cr]? = some cro)
    (hcl : clone σ r = some (σ2, r2)) :
    σ2.getProp r2 "component" = some (JSVal.ref (σ.heap.length + 1)) ∧
    σ.heap.length + 1 ≠ c := by
  obtain ⟨hr2, _, hframe, hclone, _, _, _⟩ :=
    clone_result_spec σ r c cr ro cro σ2 r2 h1 h3 h5 h6 hcl
  have hc : c < σ.heap.length := (List.getElem?_eq_some.mp h4).1
  subst hr2
  exact ⟨getProp_own hclone (by simp [JSObject.getOwn, lookupProp]), by omega⟩

/-- C5, witness: in the `clientCode` scenario the component of the clone is
address 4, distinct from the `Date` at address 1. -/
theorem C5_component_fresh_witness :
    (cloneResult clientStore 0).1.getProp (cloneResult clientStore 0).2
      "component" = some (JSVal.ref 4) ∧ (4 : Nat) ≠ 1 :=
  C5_component_fresh clientStore 0 1 2 p1Obj dateObj backRefObj
    (cloneResult clientStore 0).1 (cloneResult clientStore 0).2
    (by decide) (by decide) (by decide) (by decide) (by decide) (by decide)

/-- C6: the back-reference node of the clone is newly allocated: it lives at
the fresh address `σ.heap.length + 3`, different from the address of
`r.circularReference`. -/
theorem C6_backref_node_fresh (σ : Store) (r c cr : Nat) (ro cro : JSObject)
    (σ2 : Store) (r2 : Nat)
    (h1 : σ.heap[r]? = some ro)
    (h3 : ro.getOwn "component" = some (JSVal.ref c))
    (h5 : ro.getOwn "circularReference" = some (JSVal.ref cr))
    (h6 : σ.heap[cr]? = some cro)
    (hcl : clone σ r = some (σ2, r2)) :
    σ2.getProp r2 "circularReference" = some (JSVal.ref (σ.heap.length + 3)) ∧
    σ.heap.length + 3 ≠ cr := by
  obtain ⟨hr2, _, hframe, hclone, _, _, _⟩ :=
    clone_result_spec σ r c cr ro cro σ2 r2 h1 h3 h5 h6 hcl
  have hcr : cr < σ.heap.length := (List.getElem?_eq_some.mp h6).1
  subst hr2
  exact ⟨getProp_own hclone (by simp [JSObject.getOwn, lookupProp]), by omega⟩

/-- C6, witness: in the `clientCode` scenario the back-reference node of the
clone is address 6, distinct from the original node at address 2. -/
theorem C6_backref_node_fresh_witness :
    (cloneResult clientStore 0).1.getProp (cloneResult clientStore 0).2
      "circularReference" = some (JSVal.ref 6) ∧ (6 : Nat) ≠ 2 :=
  C6_backref_node_fresh clientStore 0 1 2 p1Obj backRefObj
    (cloneResult clientStore 0).1 (cloneResult clientStore 0).2
    (by decide) (by decide) (by decide) (by decide) (by decide)

/-- C7: `clone` leaves the source untouched: the heap entries of the source,
of its component and of its back-reference node are unchanged, so all three
fields of the source read as before and the back-reference of the source
still refers to the source. -/
theorem C7_source_unchanged (σ : Store) (r c cr : Nat) (ro co cro : JSObject)
    (prim : JSVal) (σ2 : Store) (r2 : Nat)
    (h1 : σ.heap[r]? = some ro)
    (h2 : ro.getOwn "primitive" = some prim)
    (h3 : ro.getOwn "component" = some (JSVal.ref c))
    (h4 : σ.heap[c]? = some co)
    (h5 : ro.getOwn "circularReference" = some (JSVal.ref cr))
    (h6 : σ.heap[cr]? = some cro)
    (h7 : cro.getOwn "prototype" = some (JSVal.ref r))
    (hcl : clone σ r = some (σ2, r2)) :
    σ2.heap[r]? = some ro ∧
    σ2.heap[c]? = some co ∧
    σ2.heap[cr]? = some cro ∧
    σ2.getProp r "primitive" = some prim ∧
    σ2.getProp r "component" = some (JSVal.ref c) ∧
    σ2.getProp r "circularReference" = some (JSVal.ref cr) ∧
    σ2.getProp cr "prototype" = some (JSVal.ref r) := by
  obtain ⟨hr2, _, hframe, hclone, _, _, _⟩ :=
    clone_result_spec σ r c cr ro cro σ2 r2 h1 h3 h5 h6 hcl
  have hr : r < σ.heap.length := (List.getElem?_eq_some.mp h1).1
  have hc : c < σ.heap.length := (List.getElem?_eq_some.mp h4).1
  have hcr : cr < σ.heap.length := (List.getElem?_eq_some.mp h6).1
  have er : σ2.heap[r]? = some ro := (hframe r hr).trans h1
  have ec : σ2.heap[c]? = some co := (hframe c hc).trans h4
  have ecr : σ2.heap[cr]? = some cro := (hframe cr hcr).trans h6
  exact ⟨er, ec, ecr, getProp_own er h2, getProp_own er h3, getProp_own er h5,
    getProp_own ecr h7⟩

/-- C7, witness: after `p1.clone()` in the `clientCode` scenario all three
pre-existing heap entries are unchanged and `p1` still reads
`primitive = 245`, `component =` address 1, `circularReference =` address 2,
and the node at address 2 still points at `p1`. -/
theorem C7_source_unchanged_witness :
    (cloneResult clientStore 0).1.heap[0]? = some p1Obj ∧
    (cloneResult clientStore 0).1.heap[1]? = some dateObj ∧
    (cloneResult clientStore 0).1.heap[2]? = some backRefObj ∧
    (cloneResult clientStore 0).1.getProp 0 "primitive"
      = some (JSVal.num 245) ∧
    (cloneResult clientStore 0).1.getProp 0 "component"
      = some (JSVal.ref 1) ∧
    (cloneResult clientStore 0).1.getProp 0 "circularReference"
      = some (JSVal.ref 2) ∧
    (cloneResult clientStore 0).1.getProp 2 "prototype"
      = some (JSVal.ref 0) :=
  C7_source_unchanged clientStore 0 1 2 p1Obj dateObj backRefObj
    (JSVal.num 245) (cloneResult clientStore 0).1 (cloneResult clientStore 0).2
    (by decide) (by decide) (by decide) (by decide) (by decide) (by decide)
    (by decide) (by decide)

/-- C8: the claim bundles four properties of cloning the same source twice.
Three hold and are exhibited here: the two clones are distinct objects
(addresses 3 and 7), each reads `primitive = 245`, and each owns a fresh
component (addresses 4 and 8, distinct from address 1).  The fourth — each
back-reference "pointing to that clone" — fails exactly as in C1: the
back-reference of the first clone points at the fresh copy at address 5 (not
at 3), that of the second at the fresh copy at address 9 (not at 7). -/
theorem C8_double_clone_divergence :
    cloneOnce.2 = 3 ∧ cloneTwice.2 = 7 ∧ (3 : Nat) ≠ 7 ∧
    cloneTwice.1.getProp 3 "primitive" = some (JSVal.num 245) ∧
    cloneTwice.1.getProp 7 "primitive" = some (JSVal.num 245) ∧
    cloneTwice.1.getProp 3 "component" = some (JSVal.ref 4) ∧ (4 : Nat) ≠ 1 ∧
    cloneTwice.1.getProp 7 "component" = some (JSVal.ref 8) ∧ (8 : Nat) ≠ 1 ∧
    cloneTwice.1.getProp 3 "circularReference" = some (JSVal.ref 6) ∧
    cloneTwice.1.getProp 6 "prototype" = some (JSVal.ref 5) ∧
    (5 : Nat) ≠ 3 ∧ (5 : Nat) ≠ 0 ∧
    cloneTwice.1.getProp 7 "circularReference" = some (JSVal.ref 10) ∧
    cloneTwice.1.getProp 10 "prototype" = some (JSVal.ref 9) ∧
    (9 : Nat) ≠ 7 ∧ (9 : Nat) ≠ 0 := by decide

/-- C9: the object the back-reference of the clone points at is a freshly
created shallow copy of the source: the fresh address `σ.heap.length + 2`,
distinct from both `r` and the clone `r2`, holding exactly the own properties
of the source (so its `primitive` is value-equal to that of the source). -/
theorem C9_backref_targets_fresh_shallow_copy (σ : Store) (r c cr : Nat)
    (ro cro : JSObject) (prim : JSVal) (σ2 : Store) (r2 : Nat)
    (h1 : σ.heap[r]? = some ro)
    (h2 : ro.getOwn "primitive" = some prim)
    (h3 : ro.getOwn "component" = some (JSVal.ref c))
    (h5 : ro.getOwn "circularReference" = some (JSVal.ref cr))
    (h6 : σ.heap[cr]? = some cro)
    (hcl : clone σ r = some (σ2, r2)) :
    σ2.getProp r2 "circularReference" = some (JSVal.ref (σ.heap.length + 3)) ∧
    σ2.getProp (σ.heap.length + 3) "prototype"
      = some (JSVal.ref (σ.heap.length + 2)) ∧
    σ2.heap[σ.heap.length + 2]? = some ⟨ro.props, none⟩ ∧
    σ.heap.length + 2 ≠ r ∧
    σ.heap.length + 2 ≠ r2 ∧
    σ2.getProp (σ.heap.length + 2) "primitive" = some prim := by
  obtain ⟨hr2, _, hframe, hclone, _, hcopy, hnewcr⟩ :=
    clone_result_spec σ r c cr ro cro σ2 r2 h1 h3 h5 h6 hcl
  have hr : r < σ.heap.length := (List.getElem?_eq_some.mp h1).1
  subst hr2
  refine ⟨getProp_own hclone (by simp [JSObject.getOwn, lookupProp]),
    getProp_own hnewcr (lookupProp_setProp cro.props _ _), hcopy, by omega,
    by omega, getProp_own hcopy ?_⟩
  simpa [JSObject.getOwn] using h2

/-- C9, witness: in the `clientCode` scenario the back-reference of the clone
points at address 5, which holds a copy of the own properties of `p1`, is
neither `p1` (0) nor the clone (3), and reads `primitive = 245`. -/
theorem C9_backref_fresh_copy_witness :
    (cloneResult clientStore 0).1.getProp (cloneResult clientStore 0).2
      "circularReference" = some (JSVal.ref 6) ∧
    (cloneResult clientStore 0).1.getProp 6 "prototype"
      = some (JSVal.ref 5) ∧
    (cloneResult clientStore 0).1.heap[5]? = some ⟨p1Obj.props, none⟩ ∧
    (5 : Nat) ≠ 0 ∧ (5 : Nat) ≠ 3 ∧
    (cloneResult clientStore 0).1.getProp 5 "primitive"
      = some (JSVal.num 245) :=
  C9_backref_targets_fresh_shallow_copy clientStore 0 1 2 p1Obj backRefObj
    (JSVal.num 245) (cloneResult clientStore 0).1 (cloneResult clientStore 0).2
    (by decide) (by decide) (by decide) (by decide) (by decide) (by decide)

/-- C10: for each variant, the product B created by a concrete factory
collaborates with the product A of the same factory and returns the expected
string. -/
theorem C10_factory_variant_collaboration :
    (ConcreteFactory1.createProductB ()).anotherUsefulFunctionB
        (ConcreteFactory1.createProductA ())
      = "Another useful product B1 collaborating with Product A1" ∧
    (ConcreteFactory2.createProductB ()).anotherUsefulFunctionB
        (ConcreteFactory2.createProductA ())
      = "Another useful product B2 collaborating with Product A2" := by
  constructor <;> rfl

end TSPatterns
